import Mathlib

/-!
Verification of the sb8200-exporter scrape pipeline.

The Go program logs into an Arris SB8200 cable modem web UI and scrapes
typed device state out of its HTML pages.  The pure logic of the program
is embedded below: table cells are modelled as lists of cell-text strings,
HTTP responses as status code / body / cookie data, and fetched documents
as records holding the texts found at the fixed structural selectors.
float64 values are modelled as rationals; every numeric string occurring
on the modem pages denotes a value that float64 represents exactly at the
sizes involved, so order and equality facts transfer.
-/

namespace SB8200

/-- Models goquery text lookup used by Go ScrapeColStr:
`element.Find("td:nth-child(child)").First().Text()` returns the text of
the child-th cell (1-based) of the row, or the empty string when the row
has no such cell. -/
def ScrapeColStr (row : List String) (child : Nat) : String :=
  row.getD (child - 1) ""

/-- Go strings.TrimRight: removes the maximal trailing run of characters
each of which belongs to the cutset string. -/
def trimRight (s cutset : String) : String :=
  String.mk ((s.data.reverse.dropWhile (fun c => cutset.data.contains c)).reverse)

/-- Numeric value of a digit character. -/
def digitVal (c : Char) : Nat :=
  c.toNat - '0'.toNat

/-- Value of a digit string read left to right in base 10. -/
def natOfDigits (cs : List Char) : Nat :=
  cs.foldl (fun a c => a * 10 + digitVal c) 0

/-- Unsigned part of the decimal fragment of Go strconv.ParseFloat:
a run of integer digits, optionally followed by a dot and fraction digits,
with at least one digit overall.  Exponent, hex, Inf and NaN forms never
occur on the modem pages and are outside the modelled fragment. -/
def parseUnsignedDecimal (cs : List Char) : Option ℚ :=
  match cs.dropWhile Char.isDigit with
  | [] =>
    if (cs.takeWhile Char.isDigit).isEmpty then none
    else some ((natOfDigits (cs.takeWhile Char.isDigit) : ℚ))
  | r :: fracDs =>
    if r = '.' && fracDs.all Char.isDigit
        && !((cs.takeWhile Char.isDigit).isEmpty && fracDs.isEmpty) then
      some ((natOfDigits (cs.takeWhile Char.isDigit) : ℚ)
        + (natOfDigits fracDs : ℚ) / (10 : ℚ) ^ fracDs.length)
    else none

/-- Sign handling of the float parse on the character list of the input. -/
def parseFloatChars : List Char → Option ℚ
  | [] => none
  | c :: cs =>
    if c = '+' then parseUnsignedDecimal cs
    else if c = '-' then (parseUnsignedDecimal cs).map (fun q => -q)
    else parseUnsignedDecimal (c :: cs)

/-- Models Go strconv.ParseFloat (64 bit) on plain decimal strings:
optional sign, then an unsigned decimal.  The error result is none. -/
def parseFloat (s : String) : Option ℚ :=
  parseFloatChars s.data

/-- Go func ScrapeUnitValue: TrimRight the unit cutset from the cell text,
then ParseFloat the remainder.  Go returns (0, err) on failure; the error
case is modelled as none. -/
def ScrapeUnitValue (row : List String) (child : Nat) (trim : String) : Option ℚ :=
  parseFloat (trimRight (ScrapeColStr row child) trim)

structure DownstreamChannel where
  ChannelID : String
  LockStatus : ℚ
  Modulation : String
  Frequency : String
  Power : ℚ
  SNR : ℚ
  CorrectedErrors : ℚ
  UncorrectableErrors : ℚ
deriving DecidableEq

structure UpstreamChannel where
  Channel : String
  ChannelID : String
  LockStatus : ℚ
  USChannelType : String
  Frequency : String
  Width : String
  Power : ℚ
deriving DecidableEq

structure ArrisModem where
  Host : String
  ConnectivityState : ℚ
  Uptime : ℚ
  HardwareVersion : String
  SoftwareVersion : String
  MACAddress : String
  SerialNumber : String
  DownstreamBondedChannels : List DownstreamChannel
  UpstreamBondedChannels : List UpstreamChannel
deriving DecidableEq

/-- The header test of Go ScrapeDownstreamTableRow: the row is the skipped
header row exactly when its first cell text is "Channel ID". -/
def isDownstreamHeaderRow (row : List String) : Bool :=
  ScrapeColStr row 1 == "Channel ID"

/-- The header test of Go ScrapeUpstreamTableRow: the row is a skipped
header row exactly when its first cell text is "Channel" or empty. -/
def isUpstreamHeaderRow (row : List String) : Bool :=
  ScrapeColStr row 1 == "Channel" || ScrapeColStr row 1 == ""

/-- Go func ScrapeDownstreamTableRow.  Header rows and rows with a failing
field parse yield an error in Go; both are modelled as none. -/
def ScrapeDownstreamTableRow (row : List String) : Option DownstreamChannel :=
  if isDownstreamHeaderRow row then none
  else
    match ScrapeUnitValue row 5 " dBmV", ScrapeUnitValue row 6 " dB",
          ScrapeUnitValue row 7 "", ScrapeUnitValue row 8 "" with
    | some power, some snr, some correctedErrors, some uncorrectableErrors =>
      some { ChannelID := ScrapeColStr row 1,
             LockStatus := if ScrapeColStr row 2 == "Locked" then 1 else 0,
             Modulation := ScrapeColStr row 3, Frequency := ScrapeColStr row 4,
             Power := power, SNR := snr, CorrectedErrors := correctedErrors,
             UncorrectableErrors := uncorrectableErrors }
    | _, _, _, _ => none

/-- Go func ScrapeDownstreamTable: parse every row, append the successes in
order, drop (and log) the failures. -/
def ScrapeDownstreamTable (rows : List (List String)) : List DownstreamChannel :=
  rows.filterMap ScrapeDownstreamTableRow

/-- Go func ScrapeUpstreamTableRow. -/
def ScrapeUpstreamTableRow (row : List String) : Option UpstreamChannel :=
  if isUpstreamHeaderRow row then none
  else
    match ScrapeUnitValue row 7 " dBmV" with
    | some power =>
      some { Channel := ScrapeColStr row 1, ChannelID := ScrapeColStr row 2,
             LockStatus := if ScrapeColStr row 3 == "Locked" then 1 else 0,
             USChannelType := ScrapeColStr row 4,
             Frequency := ScrapeColStr row 5, Width := ScrapeColStr row 6,
             Power := power }
    | none => none

/-- Go func ScrapeUpstreamTable. -/
def ScrapeUpstreamTable (rows : List (List String)) : List UpstreamChannel :=
  rows.filterMap ScrapeUpstreamTableRow

/-- Left to right splitter equal to Go
`regexp.MustCompile("\\D+").Split(s, -1)`: the pieces of the string lying
between the maximal runs of characters outside 0-9, including an empty
piece before a leading run and after a trailing run.  The first argument
records whether the scan is inside a run of separator characters whose
piece has already been emitted. -/
def splitNonDigitsGo : Bool → List Char → String → List String
  | _, [], cur => [cur]
  | skipping, c :: rest, cur =>
    if c.isDigit then splitNonDigitsGo false rest (cur.push c)
    else if skipping then splitNonDigitsGo true rest cur
    else cur :: splitNonDigitsGo true rest ""

/-- Split a string on the maximal runs of characters that are outside 0-9,
as Go regexp Split does with pattern backslash-D-plus. -/
def splitNonDigits (s : String) : List String :=
  splitNonDigitsGo false s.data ""

/-- The indexed uptime accumulation loop in Go Scrape: parse every token,
aborting on the first parse failure; the first token is days, then hours,
minutes, seconds; tokens past the fourth are parsed but ignored. -/
def uptimeFold : Nat → List String → ℚ → Option ℚ
  | _, [], uptime => some uptime
  | i, nStr :: rest, uptime =>
    match parseFloat nStr with
    | none => none
    | some n =>
      uptimeFold (i + 1) rest
        (if i = 0 then n
         else if i = 1 then uptime * 24 + n
         else if i = 2 then uptime * 60 + n
         else if i = 3 then uptime * 60 + n
         else uptime)

/-- The uptime computation of Go Scrape applied to the uptime cell text. -/
def parseUptime (uptimeStr : String) : Option ℚ :=
  uptimeFold 0 (splitNonDigits uptimeStr) 0

structure Cookie where
  name : String
  value : String
deriving DecidableEq

/-- Outcome of Go Login: either a captured sessionID cookie together with
the csrf token (the raw response body), or an error message. -/
inductive LoginResult where
  | ok : Cookie → String → LoginResult
  | err : String → LoginResult
deriving DecidableEq

/-- The response handling of Go (e *Exporter) Login, given the HTTP status
code, the response body and the response cookies of the credential GET.
Request construction and transport failures abort earlier in Go and are
outside this model. -/
def Login (statusCode : Nat) (body : String) (cookies : List Cookie) : LoginResult :=
  if statusCode = 200 then
    match cookies.find? (fun c => c.name == "sessionId" && c.value != "") with
    | some cookie => .ok cookie body
    | none => .err "missing sessionID"
  else if statusCode = 401 then .err "invalid credentials"
  else .err "unknown error/response code"

/-- The connection status document, reduced to the data Go Scrape reads
from it: the text found at the fixed connectivity selector (none when the
selection is empty, in which case goquery Text gives the empty string),
and the tr-rows of the second and third table on the page. -/
structure StatusPage where
  connectivityText : Option String
  downstreamRows : List (List String)
  upstreamRows : List (List String)
deriving DecidableEq

/-- The system info document, reduced to the texts Go Scrape reads at its
fixed selectors. -/
structure InfoPage where
  hwVersion : String
  swVersion : String
  macAddress : String
  serialNumber : String
  uptimeText : String
deriving DecidableEq

/-- The document processing of Go (e *Exporter) Scrape after both pages
have been fetched.  Login and fetch failures abort earlier in Go and are
outside this model; the only abort modelled here is the uptime parse,
which is the only error path in this part of the Go code. -/
def Scrape (host : String) (status : StatusPage) (info : InfoPage) : Option ArrisModem :=
  match parseUptime info.uptimeText with
  | none => none
  | some uptime =>
    some { Host := host,
           ConnectivityState := if status.connectivityText.getD "" == "OK" then 1 else 0,
           Uptime := uptime,
           HardwareVersion := info.hwVersion, SoftwareVersion := info.swVersion,
           MACAddress := info.macAddress, SerialNumber := info.serialNumber,
           DownstreamBondedChannels := ScrapeDownstreamTable status.downstreamRows,
           UpstreamBondedChannels := ScrapeUpstreamTable status.upstreamRows }

/-- Status page fixture with no connectivity match and no table rows. -/
def statusEmpty : StatusPage :=
  { connectivityText := none, downstreamRows := [], upstreamRows := [] }

/-- Info page fixture whose uptime text has the wrong token count but only
numeric tokens. -/
def infoWrongShape : InfoPage :=
  { hwVersion := "HW", swVersion := "SW", macAddress := "MAC",
    serialNumber := "SER", uptimeText := "1:2:3" }

/-- Info page fixture whose uptime text has no digits at all. -/
def infoCorrupt : InfoPage :=
  { hwVersion := "HW", swVersion := "SW", macAddress := "MAC",
    serialNumber := "SER", uptimeText := "corrupt" }

/-- Well formed downstream data row fixture. -/
def goodRow : List String :=
  ["2", "Locked", "QAM256", "549000000 Hz", "1 dBmV", "39 dB", "100", "5"]

/-- Second well formed downstream data row fixture, not locked. -/
def goodRow2 : List String :=
  ["4", "x", "QAM64", "600000000 Hz", "2 dBmV", "40 dB", "7", "8"]

/-- Downstream data row fixture whose power cell is not numeric. -/
def badRow : List String :=
  ["3", "Locked", "QAM256", "549 Hz", "x dBmV", "39 dB", "100", "5"]

/-- Downstream data row fixture with a negative corrected errors cell. -/
def negRow : List String :=
  ["9", "Locked", "QAM256", "549 Hz", "1 dBmV", "39 dB", "-1", "5"]

/-- Well formed upstream data row fixture. -/
def upRow : List String :=
  ["1", "38", "Locked", "SC-QAM", "35600000 Hz", "6400000 Hz", "42 dBmV"]

/-- The channel record produced by parsing goodRow. -/
def goodChan : DownstreamChannel :=
  { ChannelID := "2", LockStatus := 1, Modulation := "QAM256",
    Frequency := "549000000 Hz", Power := 1, SNR := 39,
    CorrectedErrors := 100, UncorrectableErrors := 5 }

/-- The channel record produced by parsing goodRow2. -/
def goodChan2 : DownstreamChannel :=
  { ChannelID := "4", LockStatus := 0, Modulation := "QAM64",
    Frequency := "600000000 Hz", Power := 2, SNR := 40,
    CorrectedErrors := 7, UncorrectableErrors := 8 }

/-- The channel record produced by parsing upRow. -/
def upChan : UpstreamChannel :=
  { Channel := "1", ChannelID := "38", LockStatus := 1,
    USChannelType := "SC-QAM", Frequency := "35600000 Hz",
    Width := "6400000 Hz", Power := 42 }

/-- Status page fixture with connectivity OK, one downstream header row and
one downstream data row, one upstream header row and one upstream data
row. -/
def statusPos : StatusPage :=
  { connectivityText := some "OK",
    downstreamRows := [["Channel ID"], goodRow],
    upstreamRows := [["Channel"], upRow] }

/-- Status page fixture holding the negative-counter downstream row. -/
def statusNeg : StatusPage :=
  { connectivityText := some "OK", downstreamRows := [negRow],
    upstreamRows := [] }

/-- Well formed info page fixture with one second of uptime. -/
def infoGood : InfoPage :=
  { hwVersion := "HW1", swVersion := "SW1", macAddress := "MAC1",
    serialNumber := "SER1", uptimeText := "0 days 00h:00m:01s.00" }

/-- The device state produced by scraping statusPos and infoGood. -/
def modemPos : ArrisModem :=
  { Host := "host", ConnectivityState := 1, Uptime := 1,
    HardwareVersion := "HW1", SoftwareVersion := "SW1",
    MACAddress := "MAC1", SerialNumber := "SER1",
    DownstreamBondedChannels := [goodChan],
    UpstreamBondedChannels := [upChan] }

/-! Helper lemmas shared by several claims. -/

theorem mk_data_eq (s : String) : String.mk s.data = s := by
  cases s
  rfl

theorem contains_eq_false_of_not_mem (l : List Char) (c : Char) (h : c ∉ l) :
    l.contains c = false := by
  cases hc : l.contains c with
  | false => rfl
  | true => exact absurd (List.elem_iff.mp hc) h

theorem parseUnsignedDecimal_last (cs : List Char) (q : ℚ)
    (h : parseUnsignedDecimal cs = some q) :
    ∃ L c, cs = L ++ [c] ∧ (c.isDigit = true ∨ c = '.') := by
  have hsplit := List.takeWhile_append_dropWhile (p := Char.isDigit) (l := cs)
  unfold parseUnsignedDecimal at h
  split at h
  next hr =>
    rw [hr, List.append_nil] at hsplit
    split at h
    next he => exact absurd h (by simp)
    next he =>
      have hne : cs.takeWhile Char.isDigit ≠ [] := by
        simp only [List.isEmpty_iff] at he
        exact he
      rcases List.eq_nil_or_concat (cs.takeWhile Char.isDigit) with hnil | ⟨L, b, hLb⟩
      · exact absurd hnil hne
      · have hb : b ∈ cs.takeWhile Char.isDigit := by
          rw [hLb]
          simp
        refine ⟨L, b, ?_, Or.inl (List.mem_takeWhile_imp hb)⟩
        conv_lhs => rw [← hsplit, hLb]
        simp
  next r fracDs hr =>
    rw [hr] at hsplit
    split at h
    next hcond =>
      simp only [Bool.and_eq_true, decide_eq_true_eq, List.all_eq_true] at hcond
      have hdot : r = '.' := hcond.1.1
      have hall : ∀ x ∈ fracDs, x.isDigit = true := hcond.1.2
      rcases List.eq_nil_or_concat fracDs with hnil | ⟨FL, fc, hFL⟩
      · subst hnil
        subst hdot
        exact ⟨cs.takeWhile Char.isDigit, '.', hsplit.symm, Or.inr rfl⟩
      · have hfc : fc ∈ fracDs := by
          rw [hFL]
          simp
        refine ⟨cs.takeWhile Char.isDigit ++ r :: FL, fc, ?_, Or.inl (hall fc hfc)⟩
        conv_lhs => rw [← hsplit, hFL]
        simp
    next hcond => exact absurd h (by simp)

theorem parseFloat_last (s : String) (q : ℚ) (h : parseFloat s = some q) :
    ∃ L c, s.data = L ++ [c] ∧ (c.isDigit = true ∨ c = '.') := by
  unfold parseFloat at h
  cases hd : s.data with
  | nil =>
    rw [hd] at h
    exact absurd h (by simp [parseFloatChars])
  | cons c0 cs =>
    rw [hd] at h
    rw [parseFloatChars] at h
    by_cases h1 : c0 = '+'
    · rw [if_pos h1] at h
      obtain ⟨L, c, hLc, hc⟩ := parseUnsignedDecimal_last cs q h
      exact ⟨c0 :: L, c, by rw [hLc, List.cons_append], hc⟩
    · rw [if_neg h1] at h
      by_cases h2 : c0 = '-'
      · rw [if_pos h2] at h
        cases hm : parseUnsignedDecimal cs with
        | none =>
          rw [hm] at h
          exact absurd h (by simp)
        | some q0 =>
          obtain ⟨L, c, hLc, hc⟩ := parseUnsignedDecimal_last cs q0 hm
          exact ⟨c0 :: L, c, by rw [hLc, List.cons_append], hc⟩
      · rw [if_neg h2] at h
        obtain ⟨L, c, hLc, hc⟩ := parseUnsignedDecimal_last (c0 :: cs) q h
        exact ⟨L, c, hd ▸ hLc, hc⟩

theorem trimRight_append_subset (s t cut : String)
    (h : ∀ c ∈ t.data, cut.data.contains c = true) :
    trimRight (s ++ t) cut = trimRight s cut := by
  unfold trimRight
  rw [String.data_append, List.reverse_append,
    List.dropWhile_append_of_pos (fun a ha => h a (List.mem_reverse.mp ha))]

theorem trimRight_eq_self (s cut : String) (L : List Char) (c : Char)
    (hs : s.data = L ++ [c]) (hc : cut.data.contains c = false) :
    trimRight s cut = s := by
  have hnc : ¬(cut.data.contains c = true) := by
    rw [hc]
    simp
  unfold trimRight
  rw [hs, List.reverse_append, List.reverse_singleton, List.singleton_append,
    List.dropWhile_cons_of_neg hnc, List.reverse_cons,
    List.reverse_reverse, ← hs, mk_data_eq]

/-- The uptime loop returns an error exactly when some token fails the
float parse, whatever the position index. -/
theorem uptimeFold_eq_none_iff (toks : List String) :
    ∀ i acc, uptimeFold i toks acc = none ↔ ∃ t ∈ toks, parseFloat t = none := by
  induction toks with
  | nil =>
    intro i acc
    simp [uptimeFold]
  | cons t rest ih =>
    intro i acc
    cases h : parseFloat t with
    | none => simp [uptimeFold, h]
    | some n => simp [uptimeFold, h, ih]

/-- C1 counterexample: the uptime parser applied to
"40 days 05h:32m:52s.00" does not return 3479572 seconds; it returns
3475972 seconds.  The formula of the claim, ((40*24+5)*60+32)*60+52,
evaluates to 3475972, so the quoted total of the claim contradicts the
formula of the very same claim. -/
theorem C1_uptime_counterexample :
    parseUptime "40 days 05h:32m:52s.00" ≠ some (3479572 : ℚ)
    ∧ parseUptime "40 days 05h:32m:52s.00" = some (3475972 : ℚ) := by
  have h : parseUptime "40 days 05h:32m:52s.00" = some (3475972 : ℚ) := by
    with_unfolding_all rfl
  refine ⟨?_, h⟩
  rw [h]
  intro hc
  exact absurd (Option.some.inj hc) (by norm_num)

/-- C1 amended: the uptime parser splits "40 days 05h:32m:52s.00" into
the five digit runs, ignores the hundredths token, and folds the rest
with units 24, 60, 60, giving ((40*24+5)*60+32)*60+52 = 3475972
seconds. -/
theorem C1_uptime_example :
    splitNonDigits "40 days 05h:32m:52s.00" = ["40", "05", "32", "52", "00"]
    ∧ parseUptime "40 days 05h:32m:52s.00" = some (((40 * 24 + 5) * 60 + 32) * 60 + 52 : ℚ)
    ∧ (((40 * 24 + 5) * 60 + 32) * 60 + 52 : ℚ) = 3475972 := by
  refine ⟨by decide, by with_unfolding_all rfl, by norm_num⟩

/-- C2 counterexample: Go strings.TrimRight removes a trailing run of
characters drawn from the cutset, not the literal suffix, so the input
"40dBmV" — which is not of the form number followed by the exact suffix
" dBmV" — still parses successfully to 40 instead of returning an
error. -/
theorem C2_unit_value_counterexample :
    ScrapeUnitValue ["40dBmV"] 1 " dBmV" = some (40 : ℚ)
    ∧ "40dBmV" ≠ "40" ++ " dBmV"
    ∧ "40".endsWith " dBmV" = false := by
  refine ⟨by with_unfolding_all rfl, by decide, by decide⟩

/-- C2 amended: ScrapeUnitValue trims trailing characters drawn from the
character set of the unit string (cutset semantics).  For every decimal
number string and every trailing string built from cutset characters —
in particular the exact unit suffix itself — the parse returns the
number; a residue that is not a decimal number is an error, never a zero
default. -/
theorem C2_unit_value_amended (numStr suffixUsed trim : String) (q : ℚ)
    (hnum : parseFloat numStr = some q)
    (hsub : ∀ c ∈ suffixUsed.data, trim.data.contains c = true)
    (hdisj : ∀ c ∈ trim.data, ¬(c.isDigit = true ∨ c = '.')) :
    ScrapeUnitValue [numStr ++ suffixUsed] 1 trim = some q := by
  obtain ⟨L, c, hLc, hc⟩ := parseFloat_last numStr q hnum
  have hnc : trim.data.contains c = false :=
    contains_eq_false_of_not_mem _ _ (fun hmem => hdisj c hmem hc)
  have h1 : ScrapeColStr [numStr ++ suffixUsed] 1 = numStr ++ suffixUsed := rfl
  unfold ScrapeUnitValue
  rw [h1, trimRight_append_subset _ _ _ hsub, trimRight_eq_self _ _ L c hLc hnc]
  exact hnum

/-- C2 witness: the amended theorem applied to the exact-suffix input
"40 dBmV" with unit " dBmV". -/
theorem C2_unit_value_witness : ScrapeUnitValue ["40 dBmV"] 1 " dBmV" = some (40 : ℚ) :=
  C2_unit_value_amended "40" " dBmV" " dBmV" 40
    (by with_unfolding_all rfl) (by decide) (by decide)

/-- C3 counterexample: the uptime string "1:2:3" has the wrong number of
numeric tokens for the fixed shape — three instead of five — yet the
uptime parse succeeds with (1*24+2)*60+3 seconds and the scrape is not
aborted, so a wrong token count is not a hard error. -/
theorem C3_uptime_counterexample :
    splitNonDigits "1:2:3" = ["1", "2", "3"]
    ∧ parseUptime "1:2:3" = some ((1 * 24 + 2) * 60 + 3 : ℚ)
    ∧ parseUptime "1:2:3" ≠ none
    ∧ (Scrape "host" statusEmpty infoWrongShape).isSome = true := by
  have h : parseUptime "1:2:3" = some ((1 * 24 + 2) * 60 + 3 : ℚ) := by
    with_unfolding_all rfl
  refine ⟨by decide, h, ?_, by with_unfolding_all rfl⟩
  rw [h]
  simp

/-- C3 amended: the uptime parse errors exactly when some split token
fails the float parse — which happens exactly for the empty tokens
produced when the string is empty, starts with a non-digit or ends with a
non-digit — and any such parse error makes the whole scrape return an
error and no device state.  A wrong token count alone, with all tokens
numeric, is not detected. -/
theorem C3_uptime_error_amended :
    (∀ s, parseUptime s = none ↔ ∃ t ∈ splitNonDigits s, parseFloat t = none)
    ∧ (∀ host status info, parseUptime info.uptimeText = none →
        Scrape host status info = none) := by
  constructor
  · intro s
    exact uptimeFold_eq_none_iff (splitNonDigits s) 0 0
  · intro host status info h
    simp [Scrape, h]

/-- C3 witness: a corrupted uptime cell makes the scrape return an error
and no device state. -/
theorem C3_uptime_error_witness : Scrape "host" statusEmpty infoCorrupt = none :=
  C3_uptime_error_amended.2 "host" statusEmpty infoCorrupt (by decide)

theorem dropWhile_pred_false {p : Char → Bool} (hp : ∀ c, p c = false) :
    ∀ l : List Char, l.dropWhile p = l := by
  intro l
  induction l with
  | nil => rfl
  | cons a t ih => rw [List.dropWhile_cons_of_neg (by simp [hp a])]

theorem trimRight_empty (s : String) : trimRight s "" = s := by
  unfold trimRight
  rw [dropWhile_pred_false (p := fun c => ("" : String).data.contains c) (fun c => rfl),
    List.reverse_reverse, mk_data_eq]

theorem ScrapeUnitValue_no_trim (row : List String) (child : Nat) :
    ScrapeUnitValue row child "" = parseFloat (ScrapeColStr row child) := by
  unfold ScrapeUnitValue
  rw [trimRight_empty]

theorem parseUnsignedDecimal_nonneg (cs : List Char) (q : ℚ)
    (h : parseUnsignedDecimal cs = some q) : 0 ≤ q := by
  unfold parseUnsignedDecimal at h
  split at h
  next =>
    split at h
    next => exact absurd h (by simp)
    next =>
      simp only [Option.some.injEq] at h
      rw [← h]
      positivity
  next =>
    split at h
    next =>
      simp only [Option.some.injEq] at h
      rw [← h]
      positivity
    next => exact absurd h (by simp)

theorem parseFloat_nonneg (s : String) (q : ℚ)
    (h : parseFloat s = some q) (hh : s.data.head? ≠ some '-') : 0 ≤ q := by
  unfold parseFloat at h
  cases hd : s.data with
  | nil =>
    rw [hd] at h
    exact absurd h (by simp [parseFloatChars])
  | cons c0 cs =>
    have hc0 : ¬(c0 = '-') := by
      intro he
      apply hh
      rw [hd, he]
      rfl
    rw [hd, parseFloatChars] at h
    by_cases h1 : c0 = '+'
    · rw [if_pos h1] at h
      exact parseUnsignedDecimal_nonneg _ _ h
    · rw [if_neg h1, if_neg hc0] at h
      exact parseUnsignedDecimal_nonneg _ _ h

theorem filterMap_eq_of_map_eq_map_some {α β : Type} (f : α → Option β) :
    ∀ (l : List α) (res : List β), l.map f = res.map some → l.filterMap f = res := by
  intro l
  induction l with
  | nil =>
    intro res h
    cases res with
    | nil => rfl
    | cons b bs => simp at h
  | cons a l ih =>
    intro res h
    cases res with
    | nil => simp at h
    | cons b bs =>
      simp only [List.map_cons, List.cons.injEq] at h
      rw [List.filterMap_cons_some h.1, ih bs h.2]

theorem ScrapeDownstreamTableRow_inv (row : List String) (ch : DownstreamChannel)
    (h : ScrapeDownstreamTableRow row = some ch) :
    isDownstreamHeaderRow row = false
    ∧ ScrapeUnitValue row 5 " dBmV" = some ch.Power
    ∧ ScrapeUnitValue row 6 " dB" = some ch.SNR
    ∧ ScrapeUnitValue row 7 "" = some ch.CorrectedErrors
    ∧ ScrapeUnitValue row 8 "" = some ch.UncorrectableErrors
    ∧ (ch.LockStatus = 0 ∨ ch.LockStatus = 1) := by
  unfold ScrapeDownstreamTableRow at h
  cases hh : isDownstreamHeaderRow row
  case true =>
    rw [hh] at h
    simp at h
  case false =>
    rw [hh] at h
    simp only [Bool.false_eq_true, if_false] at h
    cases h5 : ScrapeUnitValue row 5 " dBmV" with
    | none =>
      rw [h5] at h
      simp at h
    | some power =>
      rw [h5] at h
      cases h6 : ScrapeUnitValue row 6 " dB" with
      | none =>
        rw [h6] at h
        simp at h
      | some snr =>
        rw [h6] at h
        cases h7 : ScrapeUnitValue row 7 "" with
        | none =>
          rw [h7] at h
          simp at h
        | some ce =>
          rw [h7] at h
          cases h8 : ScrapeUnitValue row 8 "" with
          | none =>
            rw [h8] at h
            simp at h
          | some ue =>
            rw [h8] at h
            simp only [Option.some.injEq] at h
            subst h
            refine ⟨rfl, rfl, rfl, rfl, rfl, ?_⟩
            by_cases hl : ScrapeColStr row 2 == "Locked"
            · right
              simp [hl]
            · left
              simp [hl]

theorem ScrapeUpstreamTableRow_inv (row : List String) (ch : UpstreamChannel)
    (h : ScrapeUpstreamTableRow row = some ch) :
    isUpstreamHeaderRow row = false
    ∧ ScrapeUnitValue row 7 " dBmV" = some ch.Power
    ∧ (ch.LockStatus = 0 ∨ ch.LockStatus = 1) := by
  unfold ScrapeUpstreamTableRow at h
  cases hh : isUpstreamHeaderRow row
  case true =>
    rw [hh] at h
    simp at h
  case false =>
    rw [hh] at h
    simp only [Bool.false_eq_true, if_false] at h
    cases h7 : ScrapeUnitValue row 7 " dBmV" with
    | none =>
      rw [h7] at h
      simp at h
    | some power =>
      rw [h7] at h
      simp only [Option.some.injEq] at h
      subst h
      refine ⟨rfl, rfl, ?_⟩
      by_cases hl : ScrapeColStr row 3 == "Locked"
      · right
        simp [hl]
      · left
        simp [hl]

theorem Scrape_inv (host : String) (status : StatusPage) (info : InfoPage)
    (m : ArrisModem) (h : Scrape host status info = some m) :
    m.ConnectivityState = (if status.connectivityText.getD "" == "OK" then (1 : ℚ) else 0)
    ∧ m.DownstreamBondedChannels = ScrapeDownstreamTable status.downstreamRows
    ∧ m.UpstreamBondedChannels = ScrapeUpstreamTable status.upstreamRows := by
  unfold Scrape at h
  cases hu : parseUptime info.uptimeText with
  | none =>
    rw [hu] at h
    simp at h
  | some u =>
    rw [hu] at h
    simp only [Option.some.injEq] at h
    subst h
    exact ⟨rfl, rfl, rfl⟩

/-- C4: the non-transport failure cases of Login are exactly: HTTP 200
with no sessionId cookie of non-empty value gives the missing session
error, HTTP 401 gives the invalid credentials error, any other status the
unknown response error; and every successful login carries a sessionId
cookie with a non-empty value. -/
theorem C4_login_failure_cases (statusCode : Nat) (body : String) (cookies : List Cookie) :
    ((statusCode = 200 ∧ ∀ c ∈ cookies, c.name = "sessionId" → c.value = "") →
        Login statusCode body cookies = .err "missing sessionID")
    ∧ (statusCode = 401 → Login statusCode body cookies = .err "invalid credentials")
    ∧ (statusCode ≠ 200 → statusCode ≠ 401 →
        Login statusCode body cookies = .err "unknown error/response code")
    ∧ (∀ cookie tok, Login statusCode body cookies = .ok cookie tok →
        cookie.name = "sessionId" ∧ cookie.value ≠ "") := by
  refine ⟨?_, ?_, ?_, ?_⟩
  · rintro ⟨h200, hall⟩
    subst h200
    have hf : cookies.find? (fun c => c.name == "sessionId" && c.value != "") = none := by
      rw [List.find?_eq_none]
      intro c hc
      by_cases h1 : c.name = "sessionId"
      · have hv := hall c hc h1
        simp [hv]
      · simp [h1]
    simp [Login, hf]
  · intro h401
    subst h401
    simp [Login]
  · intro h200 h401
    simp [Login, h200, h401]
  · intro cookie tok h
    unfold Login at h
    by_cases h200 : statusCode = 200
    · rw [if_pos h200] at h
      cases hf : cookies.find? (fun c => c.name == "sessionId" && c.value != "") with
      | none =>
        rw [hf] at h
        exact absurd h (by simp)
      | some c0 =>
        rw [hf] at h
        have hc0 := List.find?_some hf
        simp only [Bool.and_eq_true, beq_iff_eq, bne_iff_ne] at hc0
        simp only [LoginResult.ok.injEq] at h
        rw [← h.1]
        exact hc0
    · rw [if_neg h200] at h
      by_cases h401 : statusCode = 401
      · rw [if_pos h401] at h
        exact absurd h (by simp)
      · rw [if_neg h401] at h
        exact absurd h (by simp)

/-- C4 witness: the three failure cases at concrete inputs — empty-valued
sessionId cookie, status 401, status 500. -/
theorem C4_login_witness :
    Login 200 "tok" [{ name := "sessionId", value := "" }] = .err "missing sessionID"
    ∧ Login 401 "" [] = .err "invalid credentials"
    ∧ Login 500 "" [] = .err "unknown error/response code" :=
  ⟨(C4_login_failure_cases 200 "tok" [{ name := "sessionId", value := "" }]).1
      ⟨rfl, by decide⟩,
   (C4_login_failure_cases 401 "" []).2.1 rfl,
   (C4_login_failure_cases 500 "" []).2.2.1 (by decide) (by decide)⟩

/-- C6: row classification is a strict allow list on the text of the
first cell: a downstream row is a header exactly when the first cell is
"Channel ID", an upstream row exactly when it is "Channel" or empty; a
header row is never parsed as data, and a row whose first cell is a
non-empty digit string is never classified as a header for either
shape. -/
theorem C6_classification (row : List String) :
    (isDownstreamHeaderRow row = true ↔ ScrapeColStr row 1 = "Channel ID")
    ∧ (isUpstreamHeaderRow row = true ↔
        (ScrapeColStr row 1 = "Channel" ∨ ScrapeColStr row 1 = ""))
    ∧ (isDownstreamHeaderRow row = true → ScrapeDownstreamTableRow row = none)
    ∧ (isUpstreamHeaderRow row = true → ScrapeUpstreamTableRow row = none)
    ∧ ((ScrapeColStr row 1).data ≠ [] →
        (∀ c ∈ (ScrapeColStr row 1).data, c.isDigit = true) →
        isDownstreamHeaderRow row = false ∧ isUpstreamHeaderRow row = false) := by
  refine ⟨?_, ?_, ?_, ?_, ?_⟩
  · simp [isDownstreamHeaderRow]
  · simp [isUpstreamHeaderRow]
  · intro h
    simp [ScrapeDownstreamTableRow, h]
  · intro h
    simp [ScrapeUpstreamTableRow, h]
  · intro hne hall
    have h1 : ScrapeColStr row 1 ≠ "Channel ID" := by
      intro he
      have hm : 'C' ∈ (ScrapeColStr row 1).data := by
        rw [he]
        decide
      exact absurd (hall 'C' hm) (by decide)
    have h2 : ScrapeColStr row 1 ≠ "Channel" := by
      intro he
      have hm : 'C' ∈ (ScrapeColStr row 1).data := by
        rw [he]
        decide
      exact absurd (hall 'C' hm) (by decide)
    have h3 : ScrapeColStr row 1 ≠ "" := by
      intro he
      apply hne
      rw [he]
    constructor
    · simp [isDownstreamHeaderRow, h1]
    · simp [isUpstreamHeaderRow, h2, h3]

/-- C6 witness: a row whose first cell is the digit string "42" is not a
header for either table shape. -/
theorem C6_classification_witness :
    isDownstreamHeaderRow ["42"] = false ∧ isUpstreamHeaderRow ["42"] = false :=
  (C6_classification ["42"]).2.2.2.2 (by decide) (by decide)

/-- C5: a table of one header row followed by N parseable data rows yields
exactly the N records in original order; with exactly one failing data row
the output is the N-1 surviving records in order; and the scrape result
never depends on the channel tables — only the uptime parse can abort
it.  Stated for both the downstream and the upstream table parser. -/
theorem C5_table_scan (hdr : List String) :
    (∀ (rows : List (List String)) (chans : List DownstreamChannel),
      isDownstreamHeaderRow hdr = true →
      rows.map ScrapeDownstreamTableRow = chans.map some →
      ScrapeDownstreamTable (hdr :: rows) = chans ∧ chans.length = rows.length)
    ∧ (∀ (pre post : List (List String)) (bad : List String)
        (cpre cpost : List DownstreamChannel),
      isDownstreamHeaderRow hdr = true →
      pre.map ScrapeDownstreamTableRow = cpre.map some →
      post.map ScrapeDownstreamTableRow = cpost.map some →
      ScrapeDownstreamTableRow bad = none →
      ScrapeDownstreamTable (hdr :: (pre ++ bad :: post)) = cpre ++ cpost
        ∧ (cpre ++ cpost).length + 1 = (pre ++ bad :: post).length)
    ∧ (∀ (rows : List (List String)) (chans : List UpstreamChannel),
      isUpstreamHeaderRow hdr = true →
      rows.map ScrapeUpstreamTableRow = chans.map some →
      ScrapeUpstreamTable (hdr :: rows) = chans ∧ chans.length = rows.length)
    ∧ (∀ host status info,
        (Scrape host status info).isSome = (parseUptime info.uptimeText).isSome) := by
  have hdrD : ∀ (h : isDownstreamHeaderRow hdr = true),
      ScrapeDownstreamTableRow hdr = none := fun h => by
    simp [ScrapeDownstreamTableRow, h]
  have hdrU : ∀ (h : isUpstreamHeaderRow hdr = true),
      ScrapeUpstreamTableRow hdr = none := fun h => by
    simp [ScrapeUpstreamTableRow, h]
  refine ⟨?_, ?_, ?_, ?_⟩
  · intro rows chans hh hmap
    constructor
    · unfold ScrapeDownstreamTable
      rw [List.filterMap_cons_none (hdrD hh),
        filterMap_eq_of_map_eq_map_some _ rows chans hmap]
    · have hlen := congrArg List.length hmap
      simp only [List.length_map] at hlen
      exact hlen.symm
  · intro pre post bad cpre cpost hh hpre hpost hbad
    constructor
    · unfold ScrapeDownstreamTable
      rw [List.filterMap_cons_none (hdrD hh), List.filterMap_append,
        List.filterMap_cons_none hbad,
        filterMap_eq_of_map_eq_map_some _ pre cpre hpre,
        filterMap_eq_of_map_eq_map_some _ post cpost hpost]
    · have h1 := congrArg List.length hpre
      have h2 := congrArg List.length hpost
      simp only [List.length_map] at h1 h2
      simp only [List.length_append, List.length_cons]
      omega
  · intro rows chans hh hmap
    constructor
    · unfold ScrapeUpstreamTable
      rw [List.filterMap_cons_none (hdrU hh),
        filterMap_eq_of_map_eq_map_some _ rows chans hmap]
    · have hlen := congrArg List.length hmap
      simp only [List.length_map] at hlen
      exact hlen.symm
  · intro host status info
    cases h : parseUptime info.uptimeText <;> simp [Scrape, h]

/-- C5 witness: a downstream table with a header row, two good data rows
and one bad-power data row in between yields the two surviving records in
order. -/
theorem C5_table_scan_witness :
    ScrapeDownstreamTable [["Channel ID"], goodRow, badRow, goodRow2]
      = [goodChan, goodChan2] :=
  ((C5_table_scan [("Channel ID" : String)]).2.1 [goodRow] [goodRow2] badRow
    [goodChan] [goodChan2] (by decide) (by with_unfolding_all rfl)
    (by with_unfolding_all rfl) (by with_unfolding_all rfl)).1

/-- C7: the connectivity flag of a scraped device state is 1 exactly when
the text found at the fixed connectivity selector is "OK"; it is always 0
or 1, and neither absence of a match nor any other text makes the scrape
fail. -/
theorem C7_connectivity (host : String) (status : StatusPage) (info : InfoPage)
    (m : ArrisModem) (h : Scrape host status info = some m) :
    (m.ConnectivityState = 1 ↔ status.connectivityText = some "OK")
    ∧ (m.ConnectivityState = 0 ∨ m.ConnectivityState = 1)
    ∧ (∀ t : Option String,
        (Scrape host { status with connectivityText := t } info).isSome = true) := by
  obtain ⟨hc, -, -⟩ := Scrape_inv host status info m h
  refine ⟨⟨?_, ?_⟩, ?_, ?_⟩
  · intro h1
    by_cases hok : status.connectivityText.getD "" == "OK"
    · cases ht : status.connectivityText with
      | none =>
        rw [ht] at hok
        exact absurd hok (by decide)
      | some sTxt =>
        rw [ht, Option.getD_some, beq_iff_eq] at hok
        rw [hok]
    · rw [hc, if_neg hok] at h1
      exact absurd h1 (by norm_num)
  · intro h2
    rw [hc, h2]
    with_unfolding_all rfl
  · rw [hc]
    by_cases hok : status.connectivityText.getD "" == "OK"
    · right
      rw [if_pos hok]
    · left
      rw [if_neg hok]
  · intro t
    cases hu : parseUptime info.uptimeText with
    | none =>
      unfold Scrape at h
      rw [hu] at h
      exact absurd h (by simp)
    | some u => simp [Scrape, hu]

/-- C7 witness: the fixture scrape with connectivity text "OK" yields
connectivity state 1. -/
theorem C7_connectivity_witness : modemPos.ConnectivityState = 1 :=
  ((C7_connectivity "host" statusPos infoGood modemPos
    (by with_unfolding_all rfl)).1).mpr rfl

/-- C8: downstream field extraction uses the fixed column positions — ID
from column 1, lock text from column 2 with "Locked" mapping to 1 and
anything else to 0, modulation from column 3, frequency from column 4,
power from column 5 with unit " dBmV", SNR from column 6 with unit " dB",
corrected and uncorrectable errors from columns 7 and 8 with no unit. -/
theorem C8_downstream_columns (row : List String) (p s ce ue : ℚ)
    (hhdr : isDownstreamHeaderRow row = false)
    (hp : ScrapeUnitValue row 5 " dBmV" = some p)
    (hs : ScrapeUnitValue row 6 " dB" = some s)
    (hc : ScrapeUnitValue row 7 "" = some ce)
    (hu : ScrapeUnitValue row 8 "" = some ue) :
    ScrapeDownstreamTableRow row = some
      { ChannelID := ScrapeColStr row 1,
        LockStatus := if ScrapeColStr row 2 == "Locked" then 1 else 0,
        Modulation := ScrapeColStr row 3,
        Frequency := ScrapeColStr row 4,
        Power := p, SNR := s, CorrectedErrors := ce,
        UncorrectableErrors := ue } := by
  simp [ScrapeDownstreamTableRow, hhdr, hp, hs, hc, hu]

/-- C8 witness: the good downstream row fixture parses to its record with
each field read from its fixed column. -/
theorem C8_downstream_columns_witness :
    ScrapeDownstreamTableRow goodRow = some goodChan := by
  have h := C8_downstream_columns goodRow 1 39 100 5 (by decide)
    (by with_unfolding_all rfl) (by with_unfolding_all rfl)
    (by with_unfolding_all rfl) (by with_unfolding_all rfl)
  exact h

/-- C9 counterexample: a scrape of a downstream table whose corrected
errors cell reads "-1" produces a device state holding a channel record
with a negative counter: the pipeline passes parsed values through without
enforcing non-negativity. -/
theorem C9_counters_counterexample :
    (Scrape "host" statusNeg infoGood).map
        (fun m => m.DownstreamBondedChannels.map (fun ch => ch.CorrectedErrors))
      = some [(-1 : ℚ)]
    ∧ (-1 : ℚ) < 0 := by
  refine ⟨by with_unfolding_all rfl, by norm_num⟩

/-- C9 amended: counter fields hold the parsed cell value unchanged, so
they are non-negative whenever the counter cells do not start with a minus
sign — the device reports plain non-negative decimals — but the pipeline
itself does not enforce non-negativity. -/
theorem C9_counters_amended (host : String) (status : StatusPage) (info : InfoPage)
    (m : ArrisModem) (h : Scrape host status info = some m)
    (hcells : ∀ row ∈ status.downstreamRows,
      (ScrapeColStr row 7).data.head? ≠ some '-'
      ∧ (ScrapeColStr row 8).data.head? ≠ some '-') :
    ∀ ch ∈ m.DownstreamBondedChannels,
      0 ≤ ch.CorrectedErrors ∧ 0 ≤ ch.UncorrectableErrors := by
  obtain ⟨-, hds, -⟩ := Scrape_inv host status info m h
  intro ch hch
  rw [hds] at hch
  obtain ⟨row, hrow, hparse⟩ := List.mem_filterMap.mp hch
  obtain ⟨-, -, -, h7, h8, -⟩ := ScrapeDownstreamTableRow_inv row ch hparse
  rw [ScrapeUnitValue_no_trim] at h7 h8
  exact ⟨parseFloat_nonneg _ _ h7 (hcells row hrow).1,
    parseFloat_nonneg _ _ h8 (hcells row hrow).2⟩

/-- C9 witness: the fixture scrape with plain decimal counter cells yields
non-negative counters. -/
theorem C9_counters_witness :
    0 ≤ goodChan.CorrectedErrors ∧ 0 ≤ goodChan.UncorrectableErrors :=
  C9_counters_amended "host" statusPos infoGood modemPos
    (by with_unfolding_all rfl) (by decide) goodChan
    (show goodChan ∈ [goodChan] from List.mem_singleton_self _)

/-- C10: the lock status of every channel record produced by a scrape,
downstream or upstream, is exactly 0 or 1, whatever the lock text cell
holds. -/
theorem C10_lock_status (host : String) (status : StatusPage) (info : InfoPage)
    (m : ArrisModem) (h : Scrape host status info = some m) :
    (∀ ch ∈ m.DownstreamBondedChannels, ch.LockStatus = 0 ∨ ch.LockStatus = 1)
    ∧ (∀ ch ∈ m.UpstreamBondedChannels, ch.LockStatus = 0 ∨ ch.LockStatus = 1) := by
  obtain ⟨-, hds, hus⟩ := Scrape_inv host status info m h
  constructor
  · intro ch hch
    rw [hds] at hch
    obtain ⟨row, hrow, hparse⟩ := List.mem_filterMap.mp hch
    exact (ScrapeDownstreamTableRow_inv row ch hparse).2.2.2.2.2
  · intro ch hch
    rw [hus] at hch
    obtain ⟨row, hrow, hparse⟩ := List.mem_filterMap.mp hch
    exact (ScrapeUpstreamTableRow_inv row ch hparse).2.2

/-- C10 witness: the downstream channel record of the fixture scrape has a
lock status of 0 or 1. -/
theorem C10_lock_status_witness :
    goodChan.LockStatus = 0 ∨ goodChan.LockStatus = 1 :=
  (C10_lock_status "host" statusPos infoGood modemPos
    (by with_unfolding_all rfl)).1 goodChan
    (show goodChan ∈ [goodChan] from List.mem_singleton_self _)

end SB8200
